import Mathlib

/-!
Verification of the Photo-Watermark repository (src/watermark.py and
src/watermark_gui.py) against its natural-language specification.

The Python code is shallowly embedded: pure geometry and arithmetic become
Lean functions over `Int`, `Nat` and `Rat` (Python `//` on integers is floor
division, embedded as `Int.fdiv`; Python `int(...)` on a nonnegative float
value truncates, embedded as exact rational arithmetic followed by floor);
stateful GUI code becomes explicit state passing on a state structure;
fallible steps return `Except`/`Option`.
-/

/-- Python floor division `a // 2` agrees with Euclidean division by the
positive constant 2, which is what `omega` understands. -/
theorem fdiv_two_eq (a : Int) : a.fdiv 2 = a / 2 :=
  Int.fdiv_eq_ediv a (by norm_num)

namespace PhotoWatermark

/-- Embedding of `PhotoWatermark.get_position_coordinates`
(src/watermark.py lines 59-74).  The Python dictionary lookup
`positions.get(position, positions[bottom-right])` becomes a chain of
string comparisons whose final branch is the bottom-right formula, which is
therefore also the fallback for unrecognized names. -/
def get_position_coordinates (image_size text_size : Int × Int)
    (position : String) : Int × Int :=
  let img_width := image_size.1
  let img_height := image_size.2
  let text_width := text_size.1
  let text_height := text_size.2
  if position = "top-left" then (10, 10)
  else if position = "top-center" then ((img_width - text_width).fdiv 2, 10)
  else if position = "top-right" then (img_width - text_width - 10, 10)
  else if position = "center-left" then (10, (img_height - text_height).fdiv 2)
  else if position = "center" then
    ((img_width - text_width).fdiv 2, (img_height - text_height).fdiv 2)
  else if position = "center-right" then
    (img_width - text_width - 10, (img_height - text_height).fdiv 2)
  else if position = "bottom-left" then (10, img_height - text_height - 10)
  else if position = "bottom-center" then
    ((img_width - text_width).fdiv 2, img_height - text_height - 10)
  else (img_width - text_width - 10, img_height - text_height - 10)

end PhotoWatermark

namespace WatermarkGUI

/-- Embedding of `WatermarkGUI.get_position_coordinates`
(src/watermark_gui.py lines 625-644): identical anchor table to the CLI
resolver, preceded by the manual-position branch that returns the stored
offset.  The Python coercion `int(manual_x)` is the identity on the integer
pixel offsets modelled here. -/
def get_position_coordinates (image_size wm_size : Int × Int)
    (position : String) (manual_x manual_y : Int) : Int × Int :=
  if position = "manual" then (manual_x, manual_y)
  else
    let img_width := image_size.1
    let img_height := image_size.2
    let wm_width := wm_size.1
    let wm_height := wm_size.2
    if position = "top-left" then (10, 10)
    else if position = "top-center" then ((img_width - wm_width).fdiv 2, 10)
    else if position = "top-right" then (img_width - wm_width - 10, 10)
    else if position = "center-left" then (10, (img_height - wm_height).fdiv 2)
    else if position = "center" then
      ((img_width - wm_width).fdiv 2, (img_height - wm_height).fdiv 2)
    else if position = "center-right" then
      (img_width - wm_width - 10, (img_height - wm_height).fdiv 2)
    else if position = "bottom-left" then (10, img_height - wm_height - 10)
    else if position = "bottom-center" then
      ((img_width - wm_width).fdiv 2, img_height - wm_height - 10)
    else (img_width - wm_width - 10, img_height - wm_height - 10)

end WatermarkGUI

/-- The nine named anchors offered by both the CLI option list
(src/watermark.py lines 166-170) and the GUI position grid
(src/watermark_gui.py lines 588-592). -/
def namedAnchors : List String :=
  ["top-left", "top-center", "top-right",
   "center-left", "center", "center-right",
   "bottom-left", "bottom-center", "bottom-right"]

/-- Modelled from the spec (section 4.1): the named-anchor formula table with
fixed margin `M = 10` and floor division; `none` for a string that is not one
of the nine named anchors. -/
def specNamedAnchor (W H w h : Int) (p : String) : Option (Int × Int) :=
  let M : Int := 10
  if p = "top-left" then some (M, M)
  else if p = "top-center" then some ((W - w).fdiv 2, M)
  else if p = "top-right" then some (W - w - M, M)
  else if p = "center-left" then some (M, (H - h).fdiv 2)
  else if p = "center" then some ((W - w).fdiv 2, (H - h).fdiv 2)
  else if p = "center-right" then some (W - w - M, (H - h).fdiv 2)
  else if p = "bottom-left" then some (M, H - h - M)
  else if p = "bottom-center" then some ((W - w).fdiv 2, H - h - M)
  else if p = "bottom-right" then some (W - w - M, H - h - M)
  else none

/-- C1: on each of the nine named anchors, the CLI geometry resolver returns
exactly the formula of the spec table with margin 10 and floor division, and
the GUI resolver (for any stored manual offset) computes the same result as
the CLI resolver. -/
theorem named_anchor_formulas_agree (p : String) (hp : p ∈ namedAnchors)
    (W H w h mx my : Int) :
    specNamedAnchor W H w h p =
      some (PhotoWatermark.get_position_coordinates (W, H) (w, h) p) ∧
    WatermarkGUI.get_position_coordinates (W, H) (w, h) p mx my =
      PhotoWatermark.get_position_coordinates (W, H) (w, h) p := by
  fin_cases hp <;>
    simp [specNamedAnchor, PhotoWatermark.get_position_coordinates,
      WatermarkGUI.get_position_coordinates]

/-- Witness for C1 at the anchor `center` on a 100 by 80 image with 30 by 20
content and manual offset (7, 9). -/
theorem named_anchor_formulas_agree_witness :
    "center" ∈ namedAnchors ∧
    (specNamedAnchor 100 80 30 20 "center" =
        some (PhotoWatermark.get_position_coordinates (100, 80) (30, 20) "center") ∧
      WatermarkGUI.get_position_coordinates (100, 80) (30, 20) "center" 7 9 =
        PhotoWatermark.get_position_coordinates (100, 80) (30, 20) "center") :=
  ⟨by decide, named_anchor_formulas_agree "center" (by decide) 100 80 30 20 7 9⟩

/-- C7: in manual mode the GUI resolver returns the stored absolute offset
verbatim, for every image size and content size, with no clamping: the
result does not depend on the sizes at all, so placements partially or fully
outside the canvas are returned unchanged. -/
theorem manual_position_verbatim (W H w h mx my : Int) :
    WatermarkGUI.get_position_coordinates (W, H) (w, h) "manual" mx my =
      (mx, my) := by
  simp [WatermarkGUI.get_position_coordinates]

/-- Position (x, y) places a w-by-h content box fully inside a W-by-H image. -/
def inBounds (W H w h : Int) (pos : Int × Int) : Prop :=
  0 ≤ pos.1 ∧ 0 ≤ pos.2 ∧ pos.1 + w ≤ W ∧ pos.2 + h ≤ H

/-- C3: for every named anchor and integer sizes with w < W and h < H, when
the content also fits inside the margins (w ≤ W - 2M and h ≤ H - 2M with
M = 10) both resolvers place it fully inside the image; and a negative
coordinate can only occur when w > W - 2M or h > H - 2M.  Nothing is
clamped: the resolvers are the plain formulas, so boundary overflow is
reproduced. -/
theorem named_anchor_bounds (p : String) (hp : p ∈ namedAnchors)
    (W H w h mx my : Int) (hwW : w < W) (hhH : h < H) :
    (w ≤ W - 20 → h ≤ H - 20 →
      inBounds W H w h (PhotoWatermark.get_position_coordinates (W, H) (w, h) p) ∧
      inBounds W H w h (WatermarkGUI.get_position_coordinates (W, H) (w, h) p mx my)) ∧
    (((PhotoWatermark.get_position_coordinates (W, H) (w, h) p).1 < 0 ∨
        (PhotoWatermark.get_position_coordinates (W, H) (w, h) p).2 < 0) →
      W - 20 < w ∨ H - 20 < h) := by
  fin_cases hp <;>
    simp [PhotoWatermark.get_position_coordinates,
      WatermarkGUI.get_position_coordinates, inBounds, fdiv_two_eq] <;>
    omega

/-- Witness for C3 at the anchor `bottom-right` on a 100 by 80 image with a
30 by 20 content box. -/
theorem named_anchor_bounds_witness :
    ("bottom-right" ∈ namedAnchors ∧ (30 : Int) < 100 ∧ (20 : Int) < 80) ∧
    ((30 ≤ (100 : Int) - 20 → 20 ≤ (80 : Int) - 20 →
        inBounds 100 80 30 20
          (PhotoWatermark.get_position_coordinates (100, 80) (30, 20) "bottom-right") ∧
        inBounds 100 80 30 20
          (WatermarkGUI.get_position_coordinates (100, 80) (30, 20) "bottom-right" 0 0)) ∧
      (((PhotoWatermark.get_position_coordinates (100, 80) (30, 20) "bottom-right").1 < 0 ∨
          (PhotoWatermark.get_position_coordinates (100, 80) (30, 20) "bottom-right").2 < 0) →
        (100 : Int) - 20 < 30 ∨ (80 : Int) - 20 < 20)) :=
  ⟨⟨by decide, by decide, by decide⟩,
    named_anchor_bounds "bottom-right" (by decide) 100 80 30 20 0 0
      (by decide) (by decide)⟩

namespace WatermarkGUI

/-- Embedding of the watermark resize computation in
`WatermarkGUI.apply_image_watermark` (src/watermark_gui.py lines 741-748):
`target_width = int(base_width * (scale_percent / 100))` and
`target_height = int(target_width * (w_height / w_width))`.  Python float
arithmetic followed by the truncating `int(...)` is modelled as exact
rational arithmetic truncated toward zero, which on these nonnegative
quantities is floor, i.e. natural-number division. -/
def resize_target (base_width w_width w_height scale_percent : Nat) : Nat × Nat :=
  let target_width := base_width * scale_percent / 100
  let target_height := target_width * w_height / w_width
  (target_width, target_height)

/-- Modelled from the spec (section 4.3 step 2): the target height obtained
by rounding, `targetH = round(targetW * originalHeight/originalWidth)`,
written as floor of the exact ratio plus one half. -/
def spec_target_height (target_width w_width w_height : Nat) : Nat :=
  (2 * (target_width * w_height) + w_width) / (2 * w_width)

end WatermarkGUI

/-- C2 counterexample: a 400 by 300 watermark at 25 percent of a 1000 px
wide host is resized to width 250 and height int(250 * 0.75) =
int(187.5) = 187 by the code, whereas the rounding formula claimed by the
spec gives 188: the renderer truncates, it does not round. -/
theorem resize_target_height_not_rounded :
    (WatermarkGUI.resize_target 1000 400 300 25).1 = 250 ∧
    (WatermarkGUI.resize_target 1000 400 300 25).2 = 187 ∧
    WatermarkGUI.spec_target_height 250 400 300 = 188 ∧
    (WatermarkGUI.resize_target 1000 400 300 25).2 ≠
      WatermarkGUI.spec_target_height
        (WatermarkGUI.resize_target 1000 400 300 25).1 400 300 := by
  decide

/-- C2 (amended): the image watermark renderer resizes the watermark to
targetW = floor(baseW * scalePercent/100) and targetH =
floor(targetW * origH/origW) -- truncation, not rounding -- preserving the
aspect ratio up to the floor; in particular a 400 by 200 watermark at 20
percent of a 1000 px wide host becomes 200 by 100. -/
theorem resize_target_floor
    (base_width w_width w_height scale_percent : Nat) (hw : 0 < w_width) :
    (WatermarkGUI.resize_target base_width w_width w_height scale_percent).1 =
      ⌊((base_width * scale_percent : ℕ) : ℚ) / ((100 : ℕ) : ℚ)⌋₊ ∧
    (WatermarkGUI.resize_target base_width w_width w_height scale_percent).2 =
      ⌊(((WatermarkGUI.resize_target base_width w_width w_height scale_percent).1
            * w_height : ℕ) : ℚ) / ((w_width : ℕ) : ℚ)⌋₊ ∧
    WatermarkGUI.resize_target 1000 400 200 20 = (200, 100) := by
  refine ⟨?_, ?_, by decide⟩
  · exact (Nat.floor_div_eq_div (α := ℚ) (base_width * scale_percent) 100).symm
  · exact (Nat.floor_div_eq_div (α := ℚ)
      ((WatermarkGUI.resize_target base_width w_width w_height scale_percent).1
        * w_height) w_width).symm

/-- Witness for C2 (amended) at a 1000 px host, 400 by 200 watermark, 20
percent scale. -/
theorem resize_target_floor_witness :
    0 < 400 ∧ WatermarkGUI.resize_target 1000 400 200 20 = (200, 100) :=
  ⟨by decide, (resize_target_floor 1000 400 200 20 (by decide)).2.2⟩

namespace WatermarkGUI

/-- Geometry of the rotated-text branch of `WatermarkGUI.apply_text_watermark`
(src/watermark_gui.py lines 683-711): scratch canvas side, the position where
the text is drawn on the scratch canvas, and the paste offset of the rotated
canvas on the destination. -/
structure RotatedTextLayout where
  max_dim : Int
  center_x : Int
  center_y : Int
  paste_x : Int
  paste_y : Int
deriving DecidableEq

/-- Embedding of the rotated-text branch of `WatermarkGUI.apply_text_watermark`
(src/watermark_gui.py lines 683-711).  The raster size of the PIL call
`text_img.rotate(rotation_angle, expand=True)` is taken as the input pair
(rotated_width, rotated_height); drawing and rotation of pixels are not
modelled, only the geometry.  The rotate call fills the expanded canvas with
the transparent color (0, 0, 0, 0) of the scratch canvas created on line 687. -/
def rotated_text_layout (text_width text_height x y
    rotated_width rotated_height : Int) : RotatedTextLayout :=
  let max_dim := max text_width text_height * 2
  { max_dim := max_dim
    center_x := (max_dim - text_width).fdiv 2
    center_y := (max_dim - text_height).fdiv 2
    paste_x := x - (rotated_width - text_width).fdiv 2
    paste_y := y - (rotated_height - text_height).fdiv 2 }

/-- The two drawing modes of `WatermarkGUI.apply_text_watermark`: direct
drawing at the resolved position (rotation 0, lines 712-724) or the rotated
scratch-canvas path (lines 684-711). -/
inductive TextPlacement where
  | direct (x y : Int)
  | rotated (layout : RotatedTextLayout)
deriving DecidableEq

/-- Embedding of the branch on `rotation_angle != 0` in
`WatermarkGUI.apply_text_watermark` (src/watermark_gui.py line 684). -/
def apply_text_watermark_placement (rotation_angle text_width text_height
    x y rotated_width rotated_height : Int) : TextPlacement :=
  if rotation_angle ≠ 0 then
    .rotated (rotated_text_layout text_width text_height x y
      rotated_width rotated_height)
  else .direct x y

end WatermarkGUI

/-- C4: for every nonzero rotation angle the text renderer takes the rotated
branch: a square scratch canvas of side 2 * max(textWidth, textHeight), the
text box drawn centered on it (up to the floor asymmetry of integer halving),
and the rotated result pasted at
(x - (rotatedWidth - textWidth) // 2, y - (rotatedHeight - textHeight) // 2),
so that the center of the pasted rotated canvas coincides with the center of
the text anchored at the resolved position (x, y) up to the sub-pixel parity
remainder: rotation pivots around the text center, not the image origin. -/
theorem rotated_text_branch_layout (rotation_angle text_width text_height
    x y rotated_width rotated_height : Int) (hrot : rotation_angle ≠ 0) :
    WatermarkGUI.apply_text_watermark_placement rotation_angle text_width
        text_height x y rotated_width rotated_height =
      .rotated (WatermarkGUI.rotated_text_layout text_width text_height x y
        rotated_width rotated_height) ∧
    (WatermarkGUI.rotated_text_layout text_width text_height x y
        rotated_width rotated_height).max_dim = 2 * max text_width text_height ∧
    (WatermarkGUI.rotated_text_layout text_width text_height x y
        rotated_width rotated_height).paste_x =
      x - (rotated_width - text_width).fdiv 2 ∧
    (WatermarkGUI.rotated_text_layout text_width text_height x y
        rotated_width rotated_height).paste_y =
      y - (rotated_height - text_height).fdiv 2 ∧
    2 * (WatermarkGUI.rotated_text_layout text_width text_height x y
        rotated_width rotated_height).center_x + text_width =
      (WatermarkGUI.rotated_text_layout text_width text_height x y
        rotated_width rotated_height).max_dim - (2 * max text_width text_height - text_width) % 2 ∧
    2 * (WatermarkGUI.rotated_text_layout text_width text_height x y
        rotated_width rotated_height).paste_x + rotated_width =
      2 * x + text_width + (rotated_width - text_width) % 2 ∧
    2 * (WatermarkGUI.rotated_text_layout text_width text_height x y
        rotated_width rotated_height).paste_y + rotated_height =
      2 * y + text_height + (rotated_height - text_height) % 2 ∧
    0 ≤ (rotated_width - text_width) % 2 ∧ (rotated_width - text_width) % 2 ≤ 1 := by
  refine ⟨by simp [WatermarkGUI.apply_text_watermark_placement, hrot],
    ?_, ?_, ?_, ?_, ?_, ?_, ?_, ?_⟩ <;>
    (try simp only [WatermarkGUI.rotated_text_layout, fdiv_two_eq]) <;>
    omega

/-- Witness for C4 at rotation 30, a 40 by 12 text box anchored at (50, 60),
with the rotated canvas measuring 46 by 31. -/
theorem rotated_text_branch_layout_witness :
    (30 : Int) ≠ 0 ∧
    WatermarkGUI.apply_text_watermark_placement 30 40 12 50 60 46 31 =
      .rotated (WatermarkGUI.rotated_text_layout 40 12 50 60 46 31) ∧
    WatermarkGUI.rotated_text_layout 40 12 50 60 46 31 =
      ⟨80, 20, 34, 47, 51⟩ :=
  ⟨by decide, (rotated_text_branch_layout 30 40 12 50 60 46 31 (by decide)).1,
    by decide⟩

/-- An 8-bit RGBA pixel of the composited canvas. -/
structure RGBA where
  r : Nat
  g : Nat
  b : Nat
  a : Nat
deriving DecidableEq

/-- An 8-bit RGB pixel of the flattened JPEG output. -/
structure RGBPixel where
  r : Nat
  g : Nat
  b : Nat
deriving DecidableEq

namespace WatermarkGUI

/-- One channel of pasting the canvas onto the opaque white background with
the canvas alpha channel as mask (`background.paste(image,
mask=image.split()[-1])`, src/watermark_gui.py lines 813-814): over
compositing against white in 8-bit arithmetic, modelling the PIL masked
paste blend exactly on each channel. -/
def flatten_channel (c a : Nat) : Nat := (c * a + 255 * (255 - a)) / 255

/-- The white flattening applied to a whole pixel for JPEG output. -/
def flatten_to_white (p : RGBA) : RGBPixel :=
  ⟨flatten_channel p.r p.a, flatten_channel p.g p.a, flatten_channel p.b p.a⟩

/-- The encoded result: JPEG data has no alpha channel, PNG data keeps RGBA. -/
inductive EncodedOutput where
  | jpegData (pixels : List RGBPixel)
  | pngData (pixels : List RGBA)
deriving DecidableEq

/-- Embedding of the output-format branch of
`WatermarkGUI.process_single_image` (src/watermark_gui.py lines 806-820) on
an RGBA canvas (the pipeline converts the image to RGBA on lines 793-794):
for JPEG the canvas is pasted onto a white RGB background using its alpha
channel as mask and encoded without alpha; for PNG it is encoded unchanged. -/
def process_output (output_format : String) (pixels : List RGBA) :
    EncodedOutput :=
  if output_format = "JPEG" then .jpegData (pixels.map flatten_to_white)
  else .pngData pixels

end WatermarkGUI

/-- C5: JPEG output flattens the RGBA canvas onto an opaque white background
before encoding -- per channel the floor of srcRGB * srcA + 255 * (1 - srcA)
in 8-bit alpha scale -- so every fully transparent pixel becomes pure white
(255, 255, 255); PNG output keeps all pixels, alpha included, unchanged. -/
theorem output_encoding_flatten (pixels : List RGBA) (p : RGBA) :
    WatermarkGUI.process_output "JPEG" pixels =
      .jpegData (pixels.map WatermarkGUI.flatten_to_white) ∧
    WatermarkGUI.process_output "PNG" pixels = .pngData pixels ∧
    (p.a = 0 → WatermarkGUI.flatten_to_white p = ⟨255, 255, 255⟩) ∧
    (p.a = 255 → WatermarkGUI.flatten_to_white p = ⟨p.r, p.g, p.b⟩) ∧
    (WatermarkGUI.flatten_to_white p).r =
      ⌊((p.r * p.a + 255 * (255 - p.a) : ℕ) : ℚ) / ((255 : ℕ) : ℚ)⌋₊ ∧
    (WatermarkGUI.flatten_to_white p).g =
      ⌊((p.g * p.a + 255 * (255 - p.a) : ℕ) : ℚ) / ((255 : ℕ) : ℚ)⌋₊ ∧
    (WatermarkGUI.flatten_to_white p).b =
      ⌊((p.b * p.a + 255 * (255 - p.a) : ℕ) : ℚ) / ((255 : ℕ) : ℚ)⌋₊ := by
  refine ⟨by simp [WatermarkGUI.process_output],
    by simp [WatermarkGUI.process_output], ?_, ?_, ?_, ?_, ?_⟩
  · intro h
    simp [WatermarkGUI.flatten_to_white, WatermarkGUI.flatten_channel, h]
  · intro h
    simp [WatermarkGUI.flatten_to_white, WatermarkGUI.flatten_channel, h,
      Nat.mul_div_cancel]
  all_goals
    exact (Nat.floor_div_eq_div (α := ℚ) _ 255).symm

/-- Witness for C5 on a one-pixel canvas whose pixel is fully transparent:
JPEG output flattens it to pure white, PNG output keeps it. -/
theorem output_encoding_flatten_witness :
    WatermarkGUI.flatten_to_white ⟨10, 20, 30, 0⟩ = ⟨255, 255, 255⟩ ∧
    WatermarkGUI.process_output "PNG" [⟨10, 20, 30, 0⟩] =
      .pngData [⟨10, 20, 30, 0⟩] := by
  obtain ⟨-, hpng, hwhite, -⟩ :=
    output_encoding_flatten [⟨10, 20, 30, 0⟩] ⟨10, 20, 30, 0⟩
  exact ⟨hwhite rfl, hpng⟩

namespace WatermarkGUI

/-- An image item as the batch driver sees it: the file stem used to build
the output name and the optional EXIF date extracted at load time
(src/watermark_gui.py `ImageItem`, lines 19-72; the extractor yields either
a formatted date or None). -/
structure GuiImageItem where
  stem : String
  exif_date : Option String
deriving DecidableEq

/-- Embedding of the text-source selection at the top of
`WatermarkGUI.apply_text_watermark` (src/watermark_gui.py lines 648-656):
in EXIF mode a missing date is the typed failure (None, reason); in custom
mode an empty custom text is likewise a typed failure. -/
def watermark_text_for (watermark_text_source custom_watermark_text : String)
    (item : GuiImageItem) : Except String String :=
  if watermark_text_source = "EXIF Date" then
    match item.exif_date with
    | none => .error "无EXIF拍摄时间"
    | some d => .ok d
  else if custom_watermark_text = "" then .error "自定义文本为空"
  else .ok custom_watermark_text

/-- Embedding of `WatermarkGUI.process_single_image` in text-watermark mode
(src/watermark_gui.py lines 770-825), with file loading, drawing and saving
modelled as succeeding (fonts always fall back and never fail the
operation): a None result from `apply_text_watermark` becomes the per-image
result (false, reason) with no output file; otherwise the output file named
prefix + stem + suffix + extension is written and the result is
(true, success). -/
def process_single_image_text (source custom pre suf ext : String)
    (item : GuiImageItem) : Bool × String × Option String :=
  match watermark_text_for source custom item with
  | .error m => (false, m, none)
  | .ok _ => (true, "成功", some (pre ++ item.stem ++ suf ++ ext))

/-- Embedding of the batch loop of `WatermarkGUI.process_images`
(src/watermark_gui.py lines 875-897): every image is processed in order, a
failure is only logged and the loop continues, and the summary reports
success_count and total_count; the third component collects the output
files actually written. -/
def process_images_text (source custom pre suf ext : String) :
    List GuiImageItem → Nat × Nat × List String
  | [] => (0, 0, [])
  | item :: rest =>
    let r := process_single_image_text source custom pre suf ext item
    let acc := process_images_text source custom pre suf ext rest
    ((if r.1 then 1 else 0) + acc.1, acc.2.1 + 1, r.2.2.toList ++ acc.2.2)

end WatermarkGUI

/-- C6: in text-watermark mode an image whose text source yields no content
produces the typed failure (false, reason) and writes no output file, the
batch continues, and the final summary counts exactly the images that
succeeded.  With the EXIF date source: an item without a date fails with its
reason, and succeeded = number of items with a date, total = number of
items, the written outputs being exactly those of the successful items.
With any other (custom text) source and an empty custom text: every item
fails with its reason and the summary is succeeded = 0, total = number of
items, with no output written. -/
theorem text_batch_summary (source custom pre suf ext : String)
    (items : List WatermarkGUI.GuiImageItem) :
    (∀ item : WatermarkGUI.GuiImageItem, item.exif_date = none →
      WatermarkGUI.process_single_image_text "EXIF Date" custom pre suf ext item =
        (false, "无EXIF拍摄时间", none)) ∧
    WatermarkGUI.process_images_text "EXIF Date" custom pre suf ext items =
      (items.countP (fun it => it.exif_date.isSome),
       items.length,
       (items.filter (fun it => it.exif_date.isSome)).map
         (fun it => pre ++ it.stem ++ suf ++ ext)) ∧
    (∀ item : WatermarkGUI.GuiImageItem, source ≠ "EXIF Date" → custom = "" →
      WatermarkGUI.process_single_image_text source custom pre suf ext item =
        (false, "自定义文本为空", none)) ∧
    (source ≠ "EXIF Date" → custom = "" →
      WatermarkGUI.process_images_text source custom pre suf ext items =
        (0, items.length, [])) := by
  have hcitem : ∀ item : WatermarkGUI.GuiImageItem,
      source ≠ "EXIF Date" → custom = "" →
      WatermarkGUI.process_single_image_text source custom pre suf ext item =
        (false, "自定义文本为空", none) := by
    intro item hsrc hcust
    simp [WatermarkGUI.process_single_image_text,
      WatermarkGUI.watermark_text_for, hsrc, hcust]
  refine ⟨?_, ?_, hcitem, ?_⟩
  · intro item h
    simp [WatermarkGUI.process_single_image_text,
      WatermarkGUI.watermark_text_for, h]
  · induction items with
    | nil => simp [WatermarkGUI.process_images_text]
    | cons item rest ih =>
      rcases hd : item.exif_date with _ | d <;>
        simp [WatermarkGUI.process_images_text,
          WatermarkGUI.process_single_image_text,
          WatermarkGUI.watermark_text_for, hd, ih,
          List.countP_cons, List.filter_cons, Nat.add_comm]
  · intro hsrc hcust
    induction items with
    | nil => simp [WatermarkGUI.process_images_text]
    | cons item rest ih =>
      simp [WatermarkGUI.process_images_text, hcitem item hsrc hcust, ih]

/-- A concrete batch of five items, two of which have no EXIF date. -/
def demoBatch : List WatermarkGUI.GuiImageItem :=
  [⟨"a", some "2024-01-01"⟩, ⟨"b", none⟩, ⟨"c", some "2024-01-02"⟩,
   ⟨"d", none⟩, ⟨"e", some "2024-01-03"⟩]

/-- Witness for C6: five files of which two lack EXIF dates give the summary
succeeded = 3, total = 5, only three outputs are written, and the dateless
item fails with the typed reason and no output; with the custom text source
and an empty custom text the same item fails with its typed reason and the
batch summary is succeeded = 0, total = 5 with nothing written. -/
theorem text_batch_summary_witness :
    (WatermarkGUI.process_images_text "EXIF Date" "" "" "_watermarked" ".jpg"
        demoBatch).1 = 3 ∧
    (WatermarkGUI.process_images_text "EXIF Date" "" "" "_watermarked" ".jpg"
        demoBatch).2.1 = 5 ∧
    WatermarkGUI.process_single_image_text "EXIF Date" "" "" "_watermarked"
        ".jpg" ⟨"b", none⟩ = (false, "无EXIF拍摄时间", none) ∧
    WatermarkGUI.process_single_image_text "Custom Text" "" "" "_watermarked"
        ".jpg" ⟨"b", none⟩ = (false, "自定义文本为空", none) ∧
    WatermarkGUI.process_images_text "Custom Text" "" "" "_watermarked" ".jpg"
        demoBatch = (0, 5, []) := by
  obtain ⟨hfail, hsum, hcitem, hcsum⟩ :=
    text_batch_summary "Custom Text" "" "" "_watermarked" ".jpg" demoBatch
  refine ⟨?_, ?_, hfail ⟨"b", none⟩ rfl,
    hcitem ⟨"b", none⟩ (by decide) rfl, ?_⟩
  · rw [hsum]; rfl
  · rw [hsum]; rfl
  · rw [hcsum (by decide) rfl]; rfl

namespace WatermarkGUI

/-- One transformation applied to the watermark layer inside
`WatermarkGUI.apply_image_watermark`. -/
inductive WatermarkStep where
  | opacityScale (percent : Nat)
  | resizeStep (target_width target_height : Nat)
  | rotateStep (angle : Int)
deriving DecidableEq

/-- `true` exactly on the resize step. -/
def WatermarkStep.isResize : WatermarkStep → Bool
  | .resizeStep _ _ => true
  | _ => false

/-- `true` exactly on the opacity step. -/
def WatermarkStep.isOpacity : WatermarkStep → Bool
  | .opacityScale _ => true
  | _ => false

/-- Embedding of the order of the layer transformations in
`WatermarkGUI.apply_image_watermark` (src/watermark_gui.py lines 734-753)
as the list of steps applied to the watermark, in source order: the opacity
scaling first, when image_opacity < 100 (lines 736-739), then the
proportional resize (lines 741-748), then the rotation when the angle is
nonzero (lines 750-753). -/
def apply_image_watermark_steps
    (image_opacity image_scale base_width w_width w_height : Nat)
    (rotation_angle : Int) : List WatermarkStep :=
  (if image_opacity < 100 then [WatermarkStep.opacityScale image_opacity]
   else []) ++
  [WatermarkStep.resizeStep
    (resize_target base_width w_width w_height image_scale).1
    (resize_target base_width w_width w_height image_scale).2] ++
  (if rotation_angle ≠ 0 then [WatermarkStep.rotateStep rotation_angle]
   else [])

/-- Pointwise semantics of the opacity step
(`ImageEnhance.Brightness(alpha).enhance(percent / 100)` followed by
`putalpha`, src/watermark_gui.py lines 737-739): every alpha value is
multiplied by the factor percent / 100, modelled on exact rational alpha
values. -/
def scale_alpha (percent : Nat) (a : ℚ) : ℚ := a * (percent / 100)

/-- Every resize step in the list comes strictly before every opacity step. -/
def resize_precedes_opacity (steps : List WatermarkStep) : Prop :=
  ∀ i j : Fin steps.length,
    (steps.get i).isResize = true → (steps.get j).isOpacity = true →
      (i : Nat) < (j : Nat)

instance (steps : List WatermarkStep) :
    Decidable (resize_precedes_opacity steps) := by
  unfold resize_precedes_opacity
  infer_instance

end WatermarkGUI

/-- C8 counterexample: with opacity 50 percent, scale 20 percent, a 1000 px
wide host and a 400 by 200 watermark, the transformation list is
[opacityScale 50, resizeStep 200 100]: the alpha scaling is applied before
the resize, so the claim that the resize precedes the opacity scaling fails
on this input. -/
theorem opacity_scaling_precedes_resize_cex :
    WatermarkGUI.apply_image_watermark_steps 50 20 1000 400 200 0 =
      [WatermarkGUI.WatermarkStep.opacityScale 50,
       WatermarkGUI.WatermarkStep.resizeStep 200 100] ∧
    ¬ WatermarkGUI.resize_precedes_opacity
        (WatermarkGUI.apply_image_watermark_steps 50 20 1000 400 200 0) := by
  decide

/-- C8 (amended): when opacityPercent < 100 every alpha value is scaled
multiplicatively by opacityPercent / 100 -- per-pixel transparency is
preserved proportionally -- but the alpha scaling is applied to the
watermark BEFORE the proportional resize: the step list starts with the
opacity step, immediately followed by the resize step. -/
theorem opacity_scaling_multiplicative
    (image_opacity image_scale base_width w_width w_height : Nat)
    (rotation_angle : Int) (hop : image_opacity < 100) :
    WatermarkGUI.apply_image_watermark_steps image_opacity image_scale
        base_width w_width w_height rotation_angle =
      WatermarkGUI.WatermarkStep.opacityScale image_opacity ::
      WatermarkGUI.WatermarkStep.resizeStep
        (WatermarkGUI.resize_target base_width w_width w_height image_scale).1
        (WatermarkGUI.resize_target base_width w_width w_height image_scale).2 ::
      (if rotation_angle ≠ 0 then
        [WatermarkGUI.WatermarkStep.rotateStep rotation_angle] else []) ∧
    (∀ a : ℚ, WatermarkGUI.scale_alpha image_opacity a =
      a * (image_opacity / 100)) := by
  constructor
  · simp [WatermarkGUI.apply_image_watermark_steps, hop]
  · intro a
    rfl

/-- Witness for C8 (amended) at opacity 50, scale 20, host width 1000, a
400 by 200 watermark and rotation 15: the opacity step comes first and an
alpha of one half is scaled to one quarter. -/
theorem opacity_scaling_multiplicative_witness :
    50 < 100 ∧
    WatermarkGUI.apply_image_watermark_steps 50 20 1000 400 200 15 =
      [WatermarkGUI.WatermarkStep.opacityScale 50,
       WatermarkGUI.WatermarkStep.resizeStep 200 100,
       WatermarkGUI.WatermarkStep.rotateStep 15] ∧
    WatermarkGUI.scale_alpha 50 (1 / 2) = 1 / 4 := by
  obtain ⟨hlist, hmul⟩ :=
    opacity_scaling_multiplicative 50 20 1000 400 200 15 (by decide)
  refine ⟨by decide, by rw [hlist]; rfl, by rw [hmul (1 / 2)]; norm_num⟩

namespace WatermarkGUI

/-- Embedding of `WatermarkGUI.add_files` (src/watermark_gui.py lines
480-501) restricted to the list of file paths: `ok` models the check that
the path exists and has a supported suffix (line 487), `ctor` models the
ImageItem constructor succeeding (its failure is caught and the file
skipped, lines 490-495); a path already present in the current list is
skipped (line 489), the list being extended as the loop goes.  Status
labels and widget updates are not modelled. -/
def add_files (ok ctor : String → Bool) (image_items : List String) :
    List String → List String
  | [] => image_items
  | q :: qs =>
    if ok q ∧ q ∉ image_items ∧ ctor q then
      add_files ok ctor (image_items ++ [q]) qs
    else
      add_files ok ctor image_items qs

/-- Embedding of `WatermarkGUI.clear_list` (src/watermark_gui.py lines
553-557): the image list becomes empty. -/
def clear_list (image_items : List String) : List String := []

end WatermarkGUI

/-- C9: the image list never acquires two entries with the same file path:
starting from a duplicate-free list, any `add_files` call leaves it
duplicate-free, a path already present keeps its multiplicity (it is
skipped, not re-added), and `clear_list` trivially preserves the
invariant. -/
theorem image_items_nodup_invariant (ok ctor : String → Bool)
    (image_items ps : List String) (hnd : image_items.Nodup) :
    (WatermarkGUI.add_files ok ctor image_items ps).Nodup ∧
    (∀ p ∈ image_items,
      (WatermarkGUI.add_files ok ctor image_items ps).count p =
        image_items.count p) ∧
    (WatermarkGUI.clear_list
      (WatermarkGUI.add_files ok ctor image_items ps)).Nodup := by
  induction ps generalizing image_items with
  | nil => exact ⟨hnd, fun p _ => rfl, List.nodup_nil⟩
  | cons q qs ih =>
    simp only [WatermarkGUI.add_files]
    by_cases hq : (ok q = true) ∧ q ∉ image_items ∧ (ctor q = true)
    · rw [if_pos hq]
      have hnd2 : (image_items ++ [q]).Nodup := by
        refine List.Nodup.append hnd (List.nodup_singleton q) ?_
        intro p hp hpq
        rw [List.mem_singleton] at hpq
        exact hq.2.1 (hpq ▸ hp)
      obtain ⟨h1, h2, h3⟩ := ih (image_items ++ [q]) hnd2
      refine ⟨h1, ?_, h3⟩
      intro p hp
      have hpq : p ≠ q := fun hpq => hq.2.1 (hpq ▸ hp)
      have hc0 : List.count p [q] = 0 :=
        List.count_eq_zero.mpr (by simp [hpq])
      rw [h2 p (by simp [hp]), List.count_append, hc0, Nat.add_zero]
    · rw [if_neg hq]
      exact ih image_items hnd

/-- Witness for C9: adding the paths a, b to a list already containing a
(with every path acceptable) yields a duplicate-free list in which a still
occurs once. -/
theorem image_items_nodup_invariant_witness :
    (["a"] : List String).Nodup ∧
    ((WatermarkGUI.add_files (fun _ => true) (fun _ => true) ["a"]
        ["a", "b"]).Nodup ∧
      (∀ p ∈ (["a"] : List String),
        (WatermarkGUI.add_files (fun _ => true) (fun _ => true) ["a"]
            ["a", "b"]).count p = (["a"] : List String).count p) ∧
      (WatermarkGUI.clear_list
        (WatermarkGUI.add_files (fun _ => true) (fun _ => true) ["a"]
          ["a", "b"])).Nodup) :=
  ⟨by decide,
    image_items_nodup_invariant (fun _ => true) (fun _ => true) ["a"]
      ["a", "b"] (by decide)⟩

namespace WatermarkGUI

/-- The preview-related state fields of the GUI (src/watermark_gui.py lines
85 and 116-128): the image list, the selected item, the user zoom factor,
the manual-placement flag and the stored manual offsets.  The zoom factor
is modelled as an exact rational. -/
structure PreviewState where
  image_items : List String
  current_preview_item : Option String
  preview_scale : ℚ
  manual_position : Bool
  watermark_x_offset : Int
  watermark_y_offset : Int
deriving DecidableEq

/-- Embedding of `WatermarkGUI.select_image_for_preview`
(src/watermark_gui.py lines 536-545) on the preview state: only an index
with 0 <= index < len(image_items) selects that item and resets the zoom
to 1.0, the manual-position flag to False and both offsets to 0; any other
index leaves the state untouched.  The calls to update_image_list and
update_preview_image only refresh widgets and change none of these
fields. -/
def select_image_for_preview (s : PreviewState) (index : Int) : PreviewState :=
  if 0 ≤ index ∧ index < s.image_items.length then
    { s with
      current_preview_item := s.image_items[index.toNat]?
      preview_scale := 1
      manual_position := false
      watermark_x_offset := 0
      watermark_y_offset := 0 }
  else s

end WatermarkGUI

/-- A preview state in manual-placement mode with nonzero offsets and a
zoom of 2, holding one image. -/
def demoPreviewState : WatermarkGUI.PreviewState :=
  ⟨["a.jpg"], none, 2, true, 5, 7⟩

/-- C10 counterexample: the claim quantifies over every index, but for the
out-of-range index -1 the guard `0 <= index < len(self.image_items)` fails
and nothing is reset: manual mode, the offsets and the zoom all survive. -/
theorem select_image_out_of_range_cex :
    (WatermarkGUI.select_image_for_preview demoPreviewState (-1)).manual_position
        = true ∧
    (WatermarkGUI.select_image_for_preview demoPreviewState (-1)).watermark_x_offset
        = 5 ∧
    (WatermarkGUI.select_image_for_preview demoPreviewState (-1)).watermark_y_offset
        = 7 ∧
    (WatermarkGUI.select_image_for_preview demoPreviewState (-1)).preview_scale
        = 2 := by
  decide

/-- C10 (amended): for every prior GUI state and every index that is in
range (0 ≤ index < number of images), select_image_for_preview clears
manual-placement mode and resets state: manual_position becomes false, both
manual offsets become 0, the preview zoom becomes 1.0 and the item at that
index becomes the previewed image -- manual placement does not survive
switching images. -/
theorem select_image_resets_state (s : WatermarkGUI.PreviewState)
    (index : Int) (h0 : 0 ≤ index)
    (hlen : index < (s.image_items.length : Int)) :
    (WatermarkGUI.select_image_for_preview s index).manual_position = false ∧
    (WatermarkGUI.select_image_for_preview s index).watermark_x_offset = 0 ∧
    (WatermarkGUI.select_image_for_preview s index).watermark_y_offset = 0 ∧
    (WatermarkGUI.select_image_for_preview s index).preview_scale = 1 ∧
    (WatermarkGUI.select_image_for_preview s index).current_preview_item =
      s.image_items[index.toNat]? ∧
    (WatermarkGUI.select_image_for_preview s index).image_items =
      s.image_items := by
  simp [WatermarkGUI.select_image_for_preview, h0, hlen]

/-- Witness for C10 (amended) at index 0 of the demo state: everything is
reset and the only image becomes the previewed item. -/
theorem select_image_resets_state_witness :
    ((0 : Int) ≤ 0 ∧ (0 : Int) < (demoPreviewState.image_items.length : Int)) ∧
    ((WatermarkGUI.select_image_for_preview demoPreviewState 0).manual_position
        = false ∧
      (WatermarkGUI.select_image_for_preview demoPreviewState 0).watermark_x_offset
        = 0 ∧
      (WatermarkGUI.select_image_for_preview demoPreviewState 0).watermark_y_offset
        = 0 ∧
      (WatermarkGUI.select_image_for_preview demoPreviewState 0).preview_scale
        = 1 ∧
      (WatermarkGUI.select_image_for_preview demoPreviewState 0).current_preview_item
        = demoPreviewState.image_items[(0 : Int).toNat]? ∧
      (WatermarkGUI.select_image_for_preview demoPreviewState 0).image_items
        = demoPreviewState.image_items) :=
  ⟨⟨by decide, by decide⟩,
    select_image_resets_state demoPreviewState 0 (by decide) (by decide)⟩
